import Mathlib

/-!
Verification of the Pyrrhic tablebase move/result codec headers
(`src/deps/pyrrhic/tbprobe.h`, `src/deps/pyrrhic/api.h`).

All quantities are C `unsigned` (32-bit) or `uint16_t` values, embedded as
`Nat` bit patterns.  Wherever a C expression can exceed 32 bits (a left
shift) we reduce modulo 2^32 explicitly via `u32`; the C bitwise complement
`~m` of a 32-bit mask is `compl32 m`.
-/

/-- 32-bit wraparound, the semantics of C `unsigned` arithmetic. -/
def u32 (x : Nat) : Nat := x % 4294967296

/-- C bitwise complement of a 32-bit value. -/
def compl32 (m : Nat) : Nat := m ^^^ 0xFFFFFFFF

/-! ### Move codec constants (tbprobe.h lines 36-52) -/

def PYRRHIC_FLAG_NONE : Nat := 0x0
def PYRRHIC_FLAG_QPROMO : Nat := 0x1
def PYRRHIC_FLAG_RPROMO : Nat := 0x2
def PYRRHIC_FLAG_BPROMO : Nat := 0x3
def PYRRHIC_FLAG_NPROMO : Nat := 0x4
def PYRRHIC_FLAG_ENPASS : Nat := 0x8

def PYRRHIC_SHIFT_TO : Nat := 0
def PYRRHIC_SHIFT_FROM : Nat := 6
def PYRRHIC_SHIFT_FLAGS : Nat := 12

def PYRRHIC_MASK_TO : Nat := 0x3F
def PYRRHIC_MASK_FROM : Nat := 0x3F
def PYRRHIC_MASK_FLAGS : Nat := 0x0F
def PYRRHIC_MASK_PROMO_FLAGS : Nat := 0x07

/-- `PYRRHIC_MOVE_FLAGS(x) = ((x) >> PYRRHIC_SHIFT_FLAGS) & PYRRHIC_MASK_FLAGS`. -/
def PYRRHIC_MOVE_FLAGS (x : Nat) : Nat := (x >>> PYRRHIC_SHIFT_FLAGS) &&& PYRRHIC_MASK_FLAGS

/-- `PYRRHIC_MOVE_TO(x) = ((x) >> PYRRHIC_SHIFT_TO) & PYRRHIC_MASK_TO` (api.h). -/
def PYRRHIC_MOVE_TO (x : Nat) : Nat := (x >>> PYRRHIC_SHIFT_TO) &&& PYRRHIC_MASK_TO

/-- `PYRRHIC_MOVE_FROM(x) = ((x) >> PYRRHIC_SHIFT_FROM) & PYRRHIC_MASK_FROM` (api.h). -/
def PYRRHIC_MOVE_FROM (x : Nat) : Nat := (x >>> PYRRHIC_SHIFT_FROM) &&& PYRRHIC_MASK_FROM

/-- `PYRRHIC_MOVE_IS_ENPASS(x) = (PYRRHIC_MOVE_FLAGS(x) == PYRRHIC_FLAG_ENPASS)`. -/
def PYRRHIC_MOVE_IS_ENPASS (x : Nat) : Bool := PYRRHIC_MOVE_FLAGS x == PYRRHIC_FLAG_ENPASS

/-- `PYRRHIC_MOVE_IS_QPROMO(x) = (PYRRHIC_MOVE_FLAGS(x) == PYRRHIC_FLAG_QPROMO)`. -/
def PYRRHIC_MOVE_IS_QPROMO (x : Nat) : Bool := PYRRHIC_MOVE_FLAGS x == PYRRHIC_FLAG_QPROMO

/-- `PYRRHIC_MOVE_IS_RPROMO(x) = (PYRRHIC_MOVE_FLAGS(x) == PYRRHIC_FLAG_RPROMO)`. -/
def PYRRHIC_MOVE_IS_RPROMO (x : Nat) : Bool := PYRRHIC_MOVE_FLAGS x == PYRRHIC_FLAG_RPROMO

/-- `PYRRHIC_MOVE_IS_BPROMO(x) = (PYRRHIC_MOVE_FLAGS(x) == PYRRHIC_FLAG_BPROMO)`. -/
def PYRRHIC_MOVE_IS_BPROMO (x : Nat) : Bool := PYRRHIC_MOVE_FLAGS x == PYRRHIC_FLAG_BPROMO

/-- `PYRRHIC_MOVE_IS_NPROMO(x) = (PYRRHIC_MOVE_FLAGS(x) == PYRRHIC_FLAG_NPROMO)`. -/
def PYRRHIC_MOVE_IS_NPROMO (x : Nat) : Bool := PYRRHIC_MOVE_FLAGS x == PYRRHIC_FLAG_NPROMO

/-! ### Result codec constants (tbprobe.h lines 61-72) -/

def TB_RESULT_WDL_MASK : Nat := 0x0000000F
def TB_RESULT_TO_MASK : Nat := 0x000003F0
def TB_RESULT_FROM_MASK : Nat := 0x0000FC00
def TB_RESULT_PROMOTES_MASK : Nat := 0x00070000
def TB_RESULT_EP_MASK : Nat := 0x00080000
def TB_RESULT_DTZ_MASK : Nat := 0xFFF00000
def TB_RESULT_WDL_SHIFT : Nat := 0
def TB_RESULT_TO_SHIFT : Nat := 4
def TB_RESULT_FROM_SHIFT : Nat := 10
def TB_RESULT_PROMOTES_SHIFT : Nat := 16
def TB_RESULT_EP_SHIFT : Nat := 19
def TB_RESULT_DTZ_SHIFT : Nat := 20

/-! ### Result getters (tbprobe.h lines 74-85) -/

def TB_GET_WDL (res : Nat) : Nat := (res &&& TB_RESULT_WDL_MASK) >>> TB_RESULT_WDL_SHIFT
def TB_GET_TO (res : Nat) : Nat := (res &&& TB_RESULT_TO_MASK) >>> TB_RESULT_TO_SHIFT
def TB_GET_FROM (res : Nat) : Nat := (res &&& TB_RESULT_FROM_MASK) >>> TB_RESULT_FROM_SHIFT
def TB_GET_PROMOTES (res : Nat) : Nat :=
  (res &&& TB_RESULT_PROMOTES_MASK) >>> TB_RESULT_PROMOTES_SHIFT
def TB_GET_EP (res : Nat) : Nat := (res &&& TB_RESULT_EP_MASK) >>> TB_RESULT_EP_SHIFT
def TB_GET_DTZ (res : Nat) : Nat := (res &&& TB_RESULT_DTZ_MASK) >>> TB_RESULT_DTZ_SHIFT

/-! ### Result setters (tbprobe.h lines 87-104)

Each setter is `((_res) & ~MASK) | (((_v) << SHIFT) & MASK)`.  The shifted
value is wrapped to 32 bits (`u32`), as C `unsigned` arithmetic does. -/

def TB_SET_WDL (res wdl : Nat) : Nat :=
  (res &&& compl32 TB_RESULT_WDL_MASK) |||
    (u32 (wdl <<< TB_RESULT_WDL_SHIFT) &&& TB_RESULT_WDL_MASK)

def TB_SET_TO (res dst : Nat) : Nat :=
  (res &&& compl32 TB_RESULT_TO_MASK) |||
    (u32 (dst <<< TB_RESULT_TO_SHIFT) &&& TB_RESULT_TO_MASK)

def TB_SET_FROM (res fr : Nat) : Nat :=
  (res &&& compl32 TB_RESULT_FROM_MASK) |||
    (u32 (fr <<< TB_RESULT_FROM_SHIFT) &&& TB_RESULT_FROM_MASK)

def TB_SET_PROMOTES (res promotes : Nat) : Nat :=
  (res &&& compl32 TB_RESULT_PROMOTES_MASK) |||
    (u32 (promotes <<< TB_RESULT_PROMOTES_SHIFT) &&& TB_RESULT_PROMOTES_MASK)

def TB_SET_EP (res ep : Nat) : Nat :=
  (res &&& compl32 TB_RESULT_EP_MASK) |||
    (u32 (ep <<< TB_RESULT_EP_SHIFT) &&& TB_RESULT_EP_MASK)

def TB_SET_DTZ (res dtz : Nat) : Nat :=
  (res &&& compl32 TB_RESULT_DTZ_MASK) |||
    (u32 (dtz <<< TB_RESULT_DTZ_SHIFT) &&& TB_RESULT_DTZ_MASK)

/-! ### WDL values and sentinels (api.h lines 39-49) -/

def TB_LOSS : Nat := 0
def TB_BLESSED_LOSS : Nat := 1
def TB_DRAW : Nat := 2
def TB_CURSED_WIN : Nat := 3
def TB_WIN : Nat := 4

def TB_RESULT_CHECKMATE : Nat := TB_SET_WDL 0 TB_WIN
def TB_RESULT_STALEMATE : Nat := TB_SET_WDL 0 TB_DRAW
def TB_RESULT_FAILED : Nat := 0xFFFFFFFF

/-- Two's-complement 32-bit pattern of a signed C value, the implicit
conversion applied to a signed setter argument. -/
def i32bits (v : Int) : Nat := (v % 4294967296).toNat

/-! ### Generic mask/shift lemmas -/

/-- Dropping the 32-bit wrap under a mask that fits in 32 bits. -/
theorem u32_and_eq (x m : Nat) (hm : m < 4294967296) : u32 x &&& m = x &&& m := by
  have h32 : (4294967296 : Nat) = 2 ^ 32 := by norm_num
  unfold u32
  rw [h32, ← Nat.and_pow_two_sub_one_eq_mod, Nat.and_assoc]
  have hmm : 2 ^ 32 - 1 &&& m = m := by
    rw [Nat.and_comm, Nat.and_pow_two_sub_one_eq_mod]
    exact Nat.mod_eq_of_lt (h32 ▸ hm)
  rw [hmm]

/-- Shift-right distributes over bitwise and. -/
theorem and_shiftRight (a b s : Nat) : (a &&& b) >>> s = (a >>> s) &&& (b >>> s) := by
  apply Nat.eq_of_testBit_eq
  intro i
  simp

/-- A left shift followed by an equal right shift is the identity. -/
theorem shiftLeft_then_shiftRight (x s : Nat) : (x <<< s) >>> s = x := by
  rw [Nat.shiftLeft_eq, Nat.shiftRight_eq_div_pow]
  exact Nat.mul_div_cancel x (Nat.two_pow_pos s)

/-- A setter leaves any region `n` disjoint from its mask untouched. -/
theorem setField_and (m s n r v : Nat) (h1 : compl32 m &&& n = n) (h2 : m &&& n = 0) :
    ((r &&& compl32 m) ||| (u32 (v <<< s) &&& m)) &&& n = r &&& n := by
  rw [Nat.and_distrib_right, Nat.and_assoc, Nat.and_assoc, h1, h2, Nat.and_zero, Nat.or_zero]

/-- Reading back the field just written yields the value reduced to the
field width. -/
theorem getField_setField (w s m r v : Nat) (hm : m = (2 ^ w - 1) <<< s)
    (hc : compl32 m &&& m = 0) (hm32 : m < 4294967296) :
    (((r &&& compl32 m) ||| (u32 (v <<< s) &&& m)) &&& m) >>> s = v % 2 ^ w := by
  rw [Nat.and_distrib_right, Nat.and_assoc, Nat.and_assoc, hc, Nat.and_zero,
    Nat.and_self, Nat.zero_or, u32_and_eq _ _ hm32, hm, and_shiftRight,
    shiftLeft_then_shiftRight, shiftLeft_then_shiftRight, Nat.and_pow_two_sub_one_eq_mod]

/-! ### Per-field set-then-get lemmas -/

theorem get_set_wdl (r v : Nat) : TB_GET_WDL (TB_SET_WDL r v) = v % 16 := by
  have h := getField_setField 4 TB_RESULT_WDL_SHIFT TB_RESULT_WDL_MASK r v
    (by decide) (by decide) (by decide)
  simp only [TB_GET_WDL, TB_SET_WDL]
  simpa using h

theorem get_set_to (r v : Nat) : TB_GET_TO (TB_SET_TO r v) = v % 64 := by
  have h := getField_setField 6 TB_RESULT_TO_SHIFT TB_RESULT_TO_MASK r v
    (by decide) (by decide) (by decide)
  simp only [TB_GET_TO, TB_SET_TO]
  simpa using h

theorem get_set_from (r v : Nat) : TB_GET_FROM (TB_SET_FROM r v) = v % 64 := by
  have h := getField_setField 6 TB_RESULT_FROM_SHIFT TB_RESULT_FROM_MASK r v
    (by decide) (by decide) (by decide)
  simp only [TB_GET_FROM, TB_SET_FROM]
  simpa using h

theorem get_set_promotes (r v : Nat) : TB_GET_PROMOTES (TB_SET_PROMOTES r v) = v % 8 := by
  have h := getField_setField 3 TB_RESULT_PROMOTES_SHIFT TB_RESULT_PROMOTES_MASK r v
    (by decide) (by decide) (by decide)
  simp only [TB_GET_PROMOTES, TB_SET_PROMOTES]
  simpa using h

theorem get_set_ep (r v : Nat) : TB_GET_EP (TB_SET_EP r v) = v % 2 := by
  have h := getField_setField 1 TB_RESULT_EP_SHIFT TB_RESULT_EP_MASK r v
    (by decide) (by decide) (by decide)
  simp only [TB_GET_EP, TB_SET_EP]
  simpa using h

theorem get_set_dtz (r v : Nat) : TB_GET_DTZ (TB_SET_DTZ r v) = v % 4096 := by
  have h := getField_setField 12 TB_RESULT_DTZ_SHIFT TB_RESULT_DTZ_MASK r v
    (by decide) (by decide) (by decide)
  simp only [TB_GET_DTZ, TB_SET_DTZ]
  simpa using h

/-! ### Per-field frame lemmas: a setter restricted to any disjoint region -/

theorem set_wdl_and (n r v : Nat) (h1 : compl32 TB_RESULT_WDL_MASK &&& n = n)
    (h2 : TB_RESULT_WDL_MASK &&& n = 0) : TB_SET_WDL r v &&& n = r &&& n := by
  simp only [TB_SET_WDL]
  exact setField_and _ _ n r v h1 h2

theorem set_to_and (n r v : Nat) (h1 : compl32 TB_RESULT_TO_MASK &&& n = n)
    (h2 : TB_RESULT_TO_MASK &&& n = 0) : TB_SET_TO r v &&& n = r &&& n := by
  simp only [TB_SET_TO]
  exact setField_and _ _ n r v h1 h2

theorem set_from_and (n r v : Nat) (h1 : compl32 TB_RESULT_FROM_MASK &&& n = n)
    (h2 : TB_RESULT_FROM_MASK &&& n = 0) : TB_SET_FROM r v &&& n = r &&& n := by
  simp only [TB_SET_FROM]
  exact setField_and _ _ n r v h1 h2

theorem set_promotes_and (n r v : Nat) (h1 : compl32 TB_RESULT_PROMOTES_MASK &&& n = n)
    (h2 : TB_RESULT_PROMOTES_MASK &&& n = 0) : TB_SET_PROMOTES r v &&& n = r &&& n := by
  simp only [TB_SET_PROMOTES]
  exact setField_and _ _ n r v h1 h2

theorem set_ep_and (n r v : Nat) (h1 : compl32 TB_RESULT_EP_MASK &&& n = n)
    (h2 : TB_RESULT_EP_MASK &&& n = 0) : TB_SET_EP r v &&& n = r &&& n := by
  simp only [TB_SET_EP]
  exact setField_and _ _ n r v h1 h2

theorem set_dtz_and (n r v : Nat) (h1 : compl32 TB_RESULT_DTZ_MASK &&& n = n)
    (h2 : TB_RESULT_DTZ_MASK &&& n = 0) : TB_SET_DTZ r v &&& n = r &&& n := by
  simp only [TB_SET_DTZ]
  exact setField_and _ _ n r v h1 h2
/-! ### Cross-field frame lemmas: each setter preserves every other getter -/

theorem get_to_set_wdl (r v : Nat) :
    TB_GET_TO (TB_SET_WDL r v) = TB_GET_TO r := by
  simp only [TB_GET_TO]
  rw [set_wdl_and TB_RESULT_TO_MASK r v (by decide) (by decide)]

theorem get_from_set_wdl (r v : Nat) :
    TB_GET_FROM (TB_SET_WDL r v) = TB_GET_FROM r := by
  simp only [TB_GET_FROM]
  rw [set_wdl_and TB_RESULT_FROM_MASK r v (by decide) (by decide)]

theorem get_promotes_set_wdl (r v : Nat) :
    TB_GET_PROMOTES (TB_SET_WDL r v) = TB_GET_PROMOTES r := by
  simp only [TB_GET_PROMOTES]
  rw [set_wdl_and TB_RESULT_PROMOTES_MASK r v (by decide) (by decide)]

theorem get_ep_set_wdl (r v : Nat) :
    TB_GET_EP (TB_SET_WDL r v) = TB_GET_EP r := by
  simp only [TB_GET_EP]
  rw [set_wdl_and TB_RESULT_EP_MASK r v (by decide) (by decide)]

theorem get_dtz_set_wdl (r v : Nat) :
    TB_GET_DTZ (TB_SET_WDL r v) = TB_GET_DTZ r := by
  simp only [TB_GET_DTZ]
  rw [set_wdl_and TB_RESULT_DTZ_MASK r v (by decide) (by decide)]

theorem get_wdl_set_to (r v : Nat) :
    TB_GET_WDL (TB_SET_TO r v) = TB_GET_WDL r := by
  simp only [TB_GET_WDL]
  rw [set_to_and TB_RESULT_WDL_MASK r v (by decide) (by decide)]

theorem get_from_set_to (r v : Nat) :
    TB_GET_FROM (TB_SET_TO r v) = TB_GET_FROM r := by
  simp only [TB_GET_FROM]
  rw [set_to_and TB_RESULT_FROM_MASK r v (by decide) (by decide)]

theorem get_promotes_set_to (r v : Nat) :
    TB_GET_PROMOTES (TB_SET_TO r v) = TB_GET_PROMOTES r := by
  simp only [TB_GET_PROMOTES]
  rw [set_to_and TB_RESULT_PROMOTES_MASK r v (by decide) (by decide)]

theorem get_ep_set_to (r v : Nat) :
    TB_GET_EP (TB_SET_TO r v) = TB_GET_EP r := by
  simp only [TB_GET_EP]
  rw [set_to_and TB_RESULT_EP_MASK r v (by decide) (by decide)]

theorem get_dtz_set_to (r v : Nat) :
    TB_GET_DTZ (TB_SET_TO r v) = TB_GET_DTZ r := by
  simp only [TB_GET_DTZ]
  rw [set_to_and TB_RESULT_DTZ_MASK r v (by decide) (by decide)]

theorem get_wdl_set_from (r v : Nat) :
    TB_GET_WDL (TB_SET_FROM r v) = TB_GET_WDL r := by
  simp only [TB_GET_WDL]
  rw [set_from_and TB_RESULT_WDL_MASK r v (by decide) (by decide)]

theorem get_to_set_from (r v : Nat) :
    TB_GET_TO (TB_SET_FROM r v) = TB_GET_TO r := by
  simp only [TB_GET_TO]
  rw [set_from_and TB_RESULT_TO_MASK r v (by decide) (by decide)]

theorem get_promotes_set_from (r v : Nat) :
    TB_GET_PROMOTES (TB_SET_FROM r v) = TB_GET_PROMOTES r := by
  simp only [TB_GET_PROMOTES]
  rw [set_from_and TB_RESULT_PROMOTES_MASK r v (by decide) (by decide)]

theorem get_ep_set_from (r v : Nat) :
    TB_GET_EP (TB_SET_FROM r v) = TB_GET_EP r := by
  simp only [TB_GET_EP]
  rw [set_from_and TB_RESULT_EP_MASK r v (by decide) (by decide)]

theorem get_dtz_set_from (r v : Nat) :
    TB_GET_DTZ (TB_SET_FROM r v) = TB_GET_DTZ r := by
  simp only [TB_GET_DTZ]
  rw [set_from_and TB_RESULT_DTZ_MASK r v (by decide) (by decide)]

theorem get_wdl_set_promotes (r v : Nat) :
    TB_GET_WDL (TB_SET_PROMOTES r v) = TB_GET_WDL r := by
  simp only [TB_GET_WDL]
  rw [set_promotes_and TB_RESULT_WDL_MASK r v (by decide) (by decide)]

theorem get_to_set_promotes (r v : Nat) :
    TB_GET_TO (TB_SET_PROMOTES r v) = TB_GET_TO r := by
  simp only [TB_GET_TO]
  rw [set_promotes_and TB_RESULT_TO_MASK r v (by decide) (by decide)]

theorem get_from_set_promotes (r v : Nat) :
    TB_GET_FROM (TB_SET_PROMOTES r v) = TB_GET_FROM r := by
  simp only [TB_GET_FROM]
  rw [set_promotes_and TB_RESULT_FROM_MASK r v (by decide) (by decide)]

theorem get_ep_set_promotes (r v : Nat) :
    TB_GET_EP (TB_SET_PROMOTES r v) = TB_GET_EP r := by
  simp only [TB_GET_EP]
  rw [set_promotes_and TB_RESULT_EP_MASK r v (by decide) (by decide)]

theorem get_dtz_set_promotes (r v : Nat) :
    TB_GET_DTZ (TB_SET_PROMOTES r v) = TB_GET_DTZ r := by
  simp only [TB_GET_DTZ]
  rw [set_promotes_and TB_RESULT_DTZ_MASK r v (by decide) (by decide)]

theorem get_wdl_set_ep (r v : Nat) :
    TB_GET_WDL (TB_SET_EP r v) = TB_GET_WDL r := by
  simp only [TB_GET_WDL]
  rw [set_ep_and TB_RESULT_WDL_MASK r v (by decide) (by decide)]

theorem get_to_set_ep (r v : Nat) :
    TB_GET_TO (TB_SET_EP r v) = TB_GET_TO r := by
  simp only [TB_GET_TO]
  rw [set_ep_and TB_RESULT_TO_MASK r v (by decide) (by decide)]

theorem get_from_set_ep (r v : Nat) :
    TB_GET_FROM (TB_SET_EP r v) = TB_GET_FROM r := by
  simp only [TB_GET_FROM]
  rw [set_ep_and TB_RESULT_FROM_MASK r v (by decide) (by decide)]

theorem get_promotes_set_ep (r v : Nat) :
    TB_GET_PROMOTES (TB_SET_EP r v) = TB_GET_PROMOTES r := by
  simp only [TB_GET_PROMOTES]
  rw [set_ep_and TB_RESULT_PROMOTES_MASK r v (by decide) (by decide)]

theorem get_dtz_set_ep (r v : Nat) :
    TB_GET_DTZ (TB_SET_EP r v) = TB_GET_DTZ r := by
  simp only [TB_GET_DTZ]
  rw [set_ep_and TB_RESULT_DTZ_MASK r v (by decide) (by decide)]

theorem get_wdl_set_dtz (r v : Nat) :
    TB_GET_WDL (TB_SET_DTZ r v) = TB_GET_WDL r := by
  simp only [TB_GET_WDL]
  rw [set_dtz_and TB_RESULT_WDL_MASK r v (by decide) (by decide)]

theorem get_to_set_dtz (r v : Nat) :
    TB_GET_TO (TB_SET_DTZ r v) = TB_GET_TO r := by
  simp only [TB_GET_TO]
  rw [set_dtz_and TB_RESULT_TO_MASK r v (by decide) (by decide)]

theorem get_from_set_dtz (r v : Nat) :
    TB_GET_FROM (TB_SET_DTZ r v) = TB_GET_FROM r := by
  simp only [TB_GET_FROM]
  rw [set_dtz_and TB_RESULT_FROM_MASK r v (by decide) (by decide)]

theorem get_promotes_set_dtz (r v : Nat) :
    TB_GET_PROMOTES (TB_SET_DTZ r v) = TB_GET_PROMOTES r := by
  simp only [TB_GET_PROMOTES]
  rw [set_dtz_and TB_RESULT_PROMOTES_MASK r v (by decide) (by decide)]

theorem get_ep_set_dtz (r v : Nat) :
    TB_GET_EP (TB_SET_DTZ r v) = TB_GET_EP r := by
  simp only [TB_GET_EP]
  rw [set_dtz_and TB_RESULT_EP_MASK r v (by decide) (by decide)]
/-! ### Claim theorems -/

/-- Claim C4: the six ProbeResult bit-fields are packed contiguously from
the least-significant bit upward: WDL occupies bits 0-3, destination bits
4-9, origin bits 10-15, promotion bits 16-18, en passant bit 19 and DTZ
bits 20-31; the six masks are pairwise disjoint and their union covers all
32 bits. -/
theorem result_layout_C4 :
    (∀ i < 32, Nat.testBit TB_RESULT_WDL_MASK i = true ↔ i ≤ 3) ∧
    (∀ i < 32, Nat.testBit TB_RESULT_TO_MASK i = true ↔ 4 ≤ i ∧ i ≤ 9) ∧
    (∀ i < 32, Nat.testBit TB_RESULT_FROM_MASK i = true ↔ 10 ≤ i ∧ i ≤ 15) ∧
    (∀ i < 32, Nat.testBit TB_RESULT_PROMOTES_MASK i = true ↔ 16 ≤ i ∧ i ≤ 18) ∧
    (∀ i < 32, Nat.testBit TB_RESULT_EP_MASK i = true ↔ i = 19) ∧
    (∀ i < 32, Nat.testBit TB_RESULT_DTZ_MASK i = true ↔ 20 ≤ i ∧ i ≤ 31) ∧
    TB_RESULT_WDL_MASK &&& TB_RESULT_TO_MASK = 0 ∧
    TB_RESULT_WDL_MASK &&& TB_RESULT_FROM_MASK = 0 ∧
    TB_RESULT_WDL_MASK &&& TB_RESULT_PROMOTES_MASK = 0 ∧
    TB_RESULT_WDL_MASK &&& TB_RESULT_EP_MASK = 0 ∧
    TB_RESULT_WDL_MASK &&& TB_RESULT_DTZ_MASK = 0 ∧
    TB_RESULT_TO_MASK &&& TB_RESULT_FROM_MASK = 0 ∧
    TB_RESULT_TO_MASK &&& TB_RESULT_PROMOTES_MASK = 0 ∧
    TB_RESULT_TO_MASK &&& TB_RESULT_EP_MASK = 0 ∧
    TB_RESULT_TO_MASK &&& TB_RESULT_DTZ_MASK = 0 ∧
    TB_RESULT_FROM_MASK &&& TB_RESULT_PROMOTES_MASK = 0 ∧
    TB_RESULT_FROM_MASK &&& TB_RESULT_EP_MASK = 0 ∧
    TB_RESULT_FROM_MASK &&& TB_RESULT_DTZ_MASK = 0 ∧
    TB_RESULT_PROMOTES_MASK &&& TB_RESULT_EP_MASK = 0 ∧
    TB_RESULT_PROMOTES_MASK &&& TB_RESULT_DTZ_MASK = 0 ∧
    TB_RESULT_EP_MASK &&& TB_RESULT_DTZ_MASK = 0 ∧
    (TB_RESULT_WDL_MASK ||| TB_RESULT_TO_MASK ||| TB_RESULT_FROM_MASK |||
      TB_RESULT_PROMOTES_MASK ||| TB_RESULT_EP_MASK ||| TB_RESULT_DTZ_MASK) = 0xFFFFFFFF := by
  decide

/-- Claim C5: the ProbeResult with WDL=4, to=28, from=12, promotes=0, ep=0,
dtz=17 packs (by the setters, starting from 0) to the literal
4 ||| (28<<<4) ||| (12<<<10) ||| (17<<<20) = 0x011031C4, and each getter
reads its field back from that literal. -/
theorem pack_example_C5 :
    TB_SET_DTZ (TB_SET_EP (TB_SET_PROMOTES
      (TB_SET_FROM (TB_SET_TO (TB_SET_WDL 0 4) 28) 12) 0) 0) 17 = 0x011031C4 ∧
    ((4 : Nat) ||| (28 <<< 4) ||| (12 <<< 10) ||| (17 <<< 20)) = 0x011031C4 ∧
    TB_GET_WDL 0x011031C4 = 4 ∧
    TB_GET_TO 0x011031C4 = 28 ∧
    TB_GET_FROM 0x011031C4 = 12 ∧
    TB_GET_PROMOTES 0x011031C4 = 0 ∧
    TB_GET_EP 0x011031C4 = 0 ∧
    TB_GET_DTZ 0x011031C4 = 17 := by
  decide

/-- Claim C6: TB_RESULT_FAILED is the all-ones 32-bit value; the checkmate
sentinel decodes to WDL = win (4) with DTZ 0, the stalemate sentinel to
WDL = draw (2) with DTZ 0, and the three sentinels are pairwise distinct. -/
theorem sentinels_C6 :
    TB_RESULT_FAILED = 0xFFFFFFFF ∧
    TB_GET_WDL TB_RESULT_CHECKMATE = TB_WIN ∧
    TB_GET_DTZ TB_RESULT_CHECKMATE = 0 ∧
    TB_GET_WDL TB_RESULT_STALEMATE = TB_DRAW ∧
    TB_GET_DTZ TB_RESULT_STALEMATE = 0 ∧
    TB_RESULT_CHECKMATE ≠ TB_RESULT_STALEMATE ∧
    TB_RESULT_CHECKMATE ≠ TB_RESULT_FAILED ∧
    TB_RESULT_STALEMATE ≠ TB_RESULT_FAILED := by
  decide

/-- Claim C1 counterexample: the claim includes DTZ values in the signed
range -2048..2047, but setting the (two's-complement pattern of) -1 and
reading the field back yields the unsigned residue 4095, not the set value
-1; TB_GET_DTZ never returns a negative number. -/
theorem result_roundtrip_C1_counterexample :
    TB_GET_DTZ (TB_SET_DTZ 0 (i32bits (-1))) = 4095 ∧ ((4095 : Int) ≠ (-1 : Int)) := by
  decide

/-- Claim C1 amended: setter-then-getter returns the set value for WDL in
0..4, squares in 0..63, promotion in 0..7 and en passant in 0..1; for DTZ
the getter returns the unsigned 12-bit residue of the set value, which
equals the value itself for 0..2047 but equals v + 4096 (the
two's-complement pattern read back unsigned) for v in -2048..-1. -/
theorem result_roundtrip_C1 (r : Nat) (hr : r < 4294967296)
    (wdl dst org promo ep : Nat) (dtz : Int)
    (hw : wdl ≤ 4) (hd : dst < 64) (ho : org < 64) (hp : promo < 8) (he : ep < 2)
    (hz1 : -2048 ≤ dtz) (hz2 : dtz ≤ 2047) :
    TB_GET_WDL (TB_SET_WDL r wdl) = wdl ∧
    TB_GET_TO (TB_SET_TO r dst) = dst ∧
    TB_GET_FROM (TB_SET_FROM r org) = org ∧
    TB_GET_PROMOTES (TB_SET_PROMOTES r promo) = promo ∧
    TB_GET_EP (TB_SET_EP r ep) = ep ∧
    (TB_GET_DTZ (TB_SET_DTZ r (i32bits dtz)) : Int) =
      (if 0 ≤ dtz then dtz else dtz + 4096) := by
  refine ⟨?_, ?_, ?_, ?_, ?_, ?_⟩
  · rw [get_set_wdl]; omega
  · rw [get_set_to]; omega
  · rw [get_set_from]; omega
  · rw [get_set_promotes]; omega
  · rw [get_set_ep]; omega
  · rw [get_set_dtz]
    unfold i32bits
    split <;> omega

/-- Witness for the amended claim C1 at concrete inputs, including a
negative DTZ. -/
theorem result_roundtrip_C1_witness :
    ((0x12345678 : Nat) < 4294967296 ∧ (3 : Nat) ≤ 4 ∧ (10 : Nat) < 64 ∧
      (20 : Nat) < 64 ∧ (5 : Nat) < 8 ∧ (1 : Nat) < 2 ∧
      (-2048 : Int) ≤ -7 ∧ (-7 : Int) ≤ 2047) ∧
    TB_GET_WDL (TB_SET_WDL 0x12345678 3) = 3 :=
  ⟨by decide,
    (result_roundtrip_C1 0x12345678 (by decide) 3 10 20 5 1 (-7) (by decide) (by decide)
      (by decide) (by decide) (by decide) (by decide) (by decide)).1⟩
/-- Claim C2: for every 32-bit result r and every 32-bit input v, each
setter agrees with r on every bit outside its own mask (equality after
masking with the 32-bit complement of the field mask), and the getters of
the other five fields return on the updated value exactly what they
returned on r. -/
theorem setter_frame_C2 (r v : Nat) (hr : r < 4294967296) (hv : v < 4294967296) :
    (TB_SET_WDL r v &&& compl32 TB_RESULT_WDL_MASK = r &&& compl32 TB_RESULT_WDL_MASK ∧
      TB_GET_TO (TB_SET_WDL r v) = TB_GET_TO r ∧
      TB_GET_FROM (TB_SET_WDL r v) = TB_GET_FROM r ∧
      TB_GET_PROMOTES (TB_SET_WDL r v) = TB_GET_PROMOTES r ∧
      TB_GET_EP (TB_SET_WDL r v) = TB_GET_EP r ∧
      TB_GET_DTZ (TB_SET_WDL r v) = TB_GET_DTZ r) ∧
    (TB_SET_TO r v &&& compl32 TB_RESULT_TO_MASK = r &&& compl32 TB_RESULT_TO_MASK ∧
      TB_GET_WDL (TB_SET_TO r v) = TB_GET_WDL r ∧
      TB_GET_FROM (TB_SET_TO r v) = TB_GET_FROM r ∧
      TB_GET_PROMOTES (TB_SET_TO r v) = TB_GET_PROMOTES r ∧
      TB_GET_EP (TB_SET_TO r v) = TB_GET_EP r ∧
      TB_GET_DTZ (TB_SET_TO r v) = TB_GET_DTZ r) ∧
    (TB_SET_FROM r v &&& compl32 TB_RESULT_FROM_MASK = r &&& compl32 TB_RESULT_FROM_MASK ∧
      TB_GET_WDL (TB_SET_FROM r v) = TB_GET_WDL r ∧
      TB_GET_TO (TB_SET_FROM r v) = TB_GET_TO r ∧
      TB_GET_PROMOTES (TB_SET_FROM r v) = TB_GET_PROMOTES r ∧
      TB_GET_EP (TB_SET_FROM r v) = TB_GET_EP r ∧
      TB_GET_DTZ (TB_SET_FROM r v) = TB_GET_DTZ r) ∧
    (TB_SET_PROMOTES r v &&& compl32 TB_RESULT_PROMOTES_MASK = r &&& compl32 TB_RESULT_PROMOTES_MASK ∧
      TB_GET_WDL (TB_SET_PROMOTES r v) = TB_GET_WDL r ∧
      TB_GET_TO (TB_SET_PROMOTES r v) = TB_GET_TO r ∧
      TB_GET_FROM (TB_SET_PROMOTES r v) = TB_GET_FROM r ∧
      TB_GET_EP (TB_SET_PROMOTES r v) = TB_GET_EP r ∧
      TB_GET_DTZ (TB_SET_PROMOTES r v) = TB_GET_DTZ r) ∧
    (TB_SET_EP r v &&& compl32 TB_RESULT_EP_MASK = r &&& compl32 TB_RESULT_EP_MASK ∧
      TB_GET_WDL (TB_SET_EP r v) = TB_GET_WDL r ∧
      TB_GET_TO (TB_SET_EP r v) = TB_GET_TO r ∧
      TB_GET_FROM (TB_SET_EP r v) = TB_GET_FROM r ∧
      TB_GET_PROMOTES (TB_SET_EP r v) = TB_GET_PROMOTES r ∧
      TB_GET_DTZ (TB_SET_EP r v) = TB_GET_DTZ r) ∧
    (TB_SET_DTZ r v &&& compl32 TB_RESULT_DTZ_MASK = r &&& compl32 TB_RESULT_DTZ_MASK ∧
      TB_GET_WDL (TB_SET_DTZ r v) = TB_GET_WDL r ∧
      TB_GET_TO (TB_SET_DTZ r v) = TB_GET_TO r ∧
      TB_GET_FROM (TB_SET_DTZ r v) = TB_GET_FROM r ∧
      TB_GET_PROMOTES (TB_SET_DTZ r v) = TB_GET_PROMOTES r ∧
      TB_GET_EP (TB_SET_DTZ r v) = TB_GET_EP r) := by
  exact ⟨⟨set_wdl_and _ r v (by decide) (by decide), get_to_set_wdl r v, get_from_set_wdl r v, get_promotes_set_wdl r v, get_ep_set_wdl r v, get_dtz_set_wdl r v⟩,
    ⟨set_to_and _ r v (by decide) (by decide), get_wdl_set_to r v, get_from_set_to r v, get_promotes_set_to r v, get_ep_set_to r v, get_dtz_set_to r v⟩,
    ⟨set_from_and _ r v (by decide) (by decide), get_wdl_set_from r v, get_to_set_from r v, get_promotes_set_from r v, get_ep_set_from r v, get_dtz_set_from r v⟩,
    ⟨set_promotes_and _ r v (by decide) (by decide), get_wdl_set_promotes r v, get_to_set_promotes r v, get_from_set_promotes r v, get_ep_set_promotes r v, get_dtz_set_promotes r v⟩,
    ⟨set_ep_and _ r v (by decide) (by decide), get_wdl_set_ep r v, get_to_set_ep r v, get_from_set_ep r v, get_promotes_set_ep r v, get_dtz_set_ep r v⟩,
    ⟨set_dtz_and _ r v (by decide) (by decide), get_wdl_set_dtz r v, get_to_set_dtz r v, get_from_set_dtz r v, get_promotes_set_dtz r v, get_ep_set_dtz r v⟩⟩

/-- Witness for claim C2 at concrete inputs. -/
theorem setter_frame_C2_witness :
    ((5 : Nat) < 4294967296 ∧ (7 : Nat) < 4294967296) ∧
    TB_SET_WDL 5 7 &&& compl32 TB_RESULT_WDL_MASK = 5 &&& compl32 TB_RESULT_WDL_MASK :=
  ⟨by decide, (setter_frame_C2 5 7 (by decide) (by decide)).1.1⟩

/-- Claim C10: setter inputs wider than the field are truncated modulo the
field width: for every 32-bit r and every input v, getter-of-setter
returns v mod 2^w for the field width w, and all bits outside the field
are left unchanged, so an out-of-range input never corrupts a
neighbouring field. -/
theorem setter_truncation_C10 (r v : Nat) (hr : r < 4294967296) (hv : v < 4294967296) :
    (TB_GET_WDL (TB_SET_WDL r v) = v % 16 ∧
      TB_SET_WDL r v &&& compl32 TB_RESULT_WDL_MASK = r &&& compl32 TB_RESULT_WDL_MASK) ∧
    (TB_GET_TO (TB_SET_TO r v) = v % 64 ∧
      TB_SET_TO r v &&& compl32 TB_RESULT_TO_MASK = r &&& compl32 TB_RESULT_TO_MASK) ∧
    (TB_GET_FROM (TB_SET_FROM r v) = v % 64 ∧
      TB_SET_FROM r v &&& compl32 TB_RESULT_FROM_MASK = r &&& compl32 TB_RESULT_FROM_MASK) ∧
    (TB_GET_PROMOTES (TB_SET_PROMOTES r v) = v % 8 ∧
      TB_SET_PROMOTES r v &&& compl32 TB_RESULT_PROMOTES_MASK = r &&& compl32 TB_RESULT_PROMOTES_MASK) ∧
    (TB_GET_EP (TB_SET_EP r v) = v % 2 ∧
      TB_SET_EP r v &&& compl32 TB_RESULT_EP_MASK = r &&& compl32 TB_RESULT_EP_MASK) ∧
    (TB_GET_DTZ (TB_SET_DTZ r v) = v % 4096 ∧
      TB_SET_DTZ r v &&& compl32 TB_RESULT_DTZ_MASK = r &&& compl32 TB_RESULT_DTZ_MASK) := by
  exact ⟨⟨get_set_wdl r v, set_wdl_and _ r v (by decide) (by decide)⟩,
    ⟨get_set_to r v, set_to_and _ r v (by decide) (by decide)⟩,
    ⟨get_set_from r v, set_from_and _ r v (by decide) (by decide)⟩,
    ⟨get_set_promotes r v, set_promotes_and _ r v (by decide) (by decide)⟩,
    ⟨get_set_ep r v, set_ep_and _ r v (by decide) (by decide)⟩,
    ⟨get_set_dtz r v, set_dtz_and _ r v (by decide) (by decide)⟩⟩

/-- Witness for claim C10 at concrete inputs (an out-of-width WDL value). -/
theorem setter_truncation_C10_witness :
    ((9 : Nat) < 4294967296 ∧ (300 : Nat) < 4294967296) ∧
    TB_GET_WDL (TB_SET_WDL 9 300) = 300 % 16 :=
  ⟨by decide, (setter_truncation_C10 9 300 (by decide) (by decide)).1.1⟩
/-- Claim C9: a ProbeResult packed from in-range field values is never
equal to TB_RESULT_FAILED: the WDL field of the packed value is the set
WDL class (at most 4), while TB_GET_WDL of the failure sentinel is 15,
outside the WDL enumeration. -/
theorem pack_ne_failed_C9 (wdl dst org promo ep dtzv : Nat)
    (hw : wdl ≤ 4) (hd : dst < 64) (ho : org < 64) (hp : promo < 8) (he : ep < 2)
    (hz : dtzv < 4096) :
    TB_GET_WDL (TB_SET_DTZ (TB_SET_EP (TB_SET_PROMOTES
      (TB_SET_FROM (TB_SET_TO (TB_SET_WDL 0 wdl) dst) org) promo) ep) dtzv) = wdl ∧
    TB_GET_WDL TB_RESULT_FAILED = 15 ∧
    TB_SET_DTZ (TB_SET_EP (TB_SET_PROMOTES
      (TB_SET_FROM (TB_SET_TO (TB_SET_WDL 0 wdl) dst) org) promo) ep) dtzv ≠
      TB_RESULT_FAILED := by
  have hwdl : TB_GET_WDL (TB_SET_DTZ (TB_SET_EP (TB_SET_PROMOTES
      (TB_SET_FROM (TB_SET_TO (TB_SET_WDL 0 wdl) dst) org) promo) ep) dtzv) = wdl := by
    rw [get_wdl_set_dtz, get_wdl_set_ep, get_wdl_set_promotes, get_wdl_set_from,
      get_wdl_set_to, get_set_wdl]
    omega
  have hfail : TB_GET_WDL TB_RESULT_FAILED = 15 := by decide
  refine ⟨hwdl, hfail, fun hEq => ?_⟩
  rw [hEq, hfail] at hwdl
  omega

/-- Witness for claim C9 at concrete inputs. -/
theorem pack_ne_failed_C9_witness :
    ((4 : Nat) ≤ 4 ∧ (28 : Nat) < 64 ∧ (12 : Nat) < 64 ∧ (0 : Nat) < 8 ∧
      (0 : Nat) < 2 ∧ (17 : Nat) < 4096) ∧
    TB_SET_DTZ (TB_SET_EP (TB_SET_PROMOTES
      (TB_SET_FROM (TB_SET_TO (TB_SET_WDL 0 4) 28) 12) 0) 0) 17 ≠ TB_RESULT_FAILED :=
  ⟨by decide, (pack_ne_failed_C9 4 28 12 0 0 17 (by decide) (by decide) (by decide)
    (by decide) (by decide) (by decide)).2.2⟩

/-- Claim C7: the five move-classification predicates (en passant and the
four promotions) are mutually exclusive on every 16-bit move value: each
compares the same extracted flags field against a different constant, so
no two can hold at once; in particular a move is never both a promotion
and an en-passant capture. -/
theorem move_flags_exclusive_C7 (m : Nat) (hm : m < 65536) :
    ¬(PYRRHIC_MOVE_IS_ENPASS m = true ∧ PYRRHIC_MOVE_IS_QPROMO m = true) ∧
    ¬(PYRRHIC_MOVE_IS_ENPASS m = true ∧ PYRRHIC_MOVE_IS_RPROMO m = true) ∧
    ¬(PYRRHIC_MOVE_IS_ENPASS m = true ∧ PYRRHIC_MOVE_IS_BPROMO m = true) ∧
    ¬(PYRRHIC_MOVE_IS_ENPASS m = true ∧ PYRRHIC_MOVE_IS_NPROMO m = true) ∧
    ¬(PYRRHIC_MOVE_IS_QPROMO m = true ∧ PYRRHIC_MOVE_IS_RPROMO m = true) ∧
    ¬(PYRRHIC_MOVE_IS_QPROMO m = true ∧ PYRRHIC_MOVE_IS_BPROMO m = true) ∧
    ¬(PYRRHIC_MOVE_IS_QPROMO m = true ∧ PYRRHIC_MOVE_IS_NPROMO m = true) ∧
    ¬(PYRRHIC_MOVE_IS_RPROMO m = true ∧ PYRRHIC_MOVE_IS_BPROMO m = true) ∧
    ¬(PYRRHIC_MOVE_IS_RPROMO m = true ∧ PYRRHIC_MOVE_IS_NPROMO m = true) ∧
    ¬(PYRRHIC_MOVE_IS_BPROMO m = true ∧ PYRRHIC_MOVE_IS_NPROMO m = true) := by
  simp only [PYRRHIC_MOVE_IS_ENPASS, PYRRHIC_MOVE_IS_QPROMO, PYRRHIC_MOVE_IS_RPROMO,
    PYRRHIC_MOVE_IS_BPROMO, PYRRHIC_MOVE_IS_NPROMO, PYRRHIC_FLAG_ENPASS,
    PYRRHIC_FLAG_QPROMO, PYRRHIC_FLAG_RPROMO, PYRRHIC_FLAG_BPROMO, PYRRHIC_FLAG_NPROMO,
    beq_iff_eq]
  omega

/-- Witness for claim C7 at a concrete move value. -/
theorem move_flags_exclusive_C7_witness :
    (0 : Nat) < 65536 ∧
    ¬(PYRRHIC_MOVE_IS_ENPASS 0 = true ∧ PYRRHIC_MOVE_IS_QPROMO 0 = true) :=
  ⟨by decide, (move_flags_exclusive_C7 0 (by decide)).1⟩
/-- Helper for claim C3: arithmetic value of a packed move built from
in-range squares. -/
theorem packed_move_eq (o d f : Nat) (ho : o < 64) (hd : d < 64) :
    (f <<< 12) ||| (o <<< 6) ||| d = 4096 * f + 64 * o + d := by
  rw [Nat.shiftLeft_eq, Nat.shiftLeft_eq]
  rw [Nat.mul_comm f (2 ^ 12), Nat.mul_comm o (2 ^ 6)]
  have e1 : (2 : Nat) ^ 12 * f ||| 2 ^ 6 * o = 2 ^ 12 * f + 2 ^ 6 * o := by
    refine (Nat.mul_add_lt_is_or ?_ f).symm
    have h1 : (2 : Nat) ^ 6 = 64 := by norm_num
    have h2 : (2 : Nat) ^ 12 = 4096 := by norm_num
    omega
  rw [e1]
  have e2 : (2 : Nat) ^ 12 * f + 2 ^ 6 * o = 2 ^ 6 * (2 ^ 6 * f + o) := by ring
  rw [e2]
  have e3 : (2 : Nat) ^ 6 * (2 ^ 6 * f + o) ||| d = 2 ^ 6 * (2 ^ 6 * f + o) + d := by
    refine (Nat.mul_add_lt_is_or ?_ (2 ^ 6 * f + o)).symm
    have h1 : (2 : Nat) ^ 6 = 64 := by norm_num
    omega
  rw [e3]
  have h1 : (2 : Nat) ^ 6 = 64 := by norm_num
  rw [h1]
  ring

/-- Claim C3: a move packed as (f<<12)|(o<<6)|d from an origin square o,
destination square d (both 0..63) and a flag f among the six flag
constants decodes back to exactly (o, d, f); in particular the
queen-promotion example (o=12, d=28, f=1) packs to
(1<<12)|(12<<6)|28 = 4892 and satisfies PYRRHIC_MOVE_IS_QPROMO. -/
theorem move_roundtrip_C3 (o d f : Nat) (ho : o < 64) (hd : d < 64)
    (hf : f = PYRRHIC_FLAG_NONE ∨ f = PYRRHIC_FLAG_QPROMO ∨ f = PYRRHIC_FLAG_RPROMO ∨
      f = PYRRHIC_FLAG_BPROMO ∨ f = PYRRHIC_FLAG_NPROMO ∨ f = PYRRHIC_FLAG_ENPASS) :
    PYRRHIC_MOVE_FROM ((f <<< 12) ||| (o <<< 6) ||| d) = o ∧
    PYRRHIC_MOVE_TO ((f <<< 12) ||| (o <<< 6) ||| d) = d ∧
    PYRRHIC_MOVE_FLAGS ((f <<< 12) ||| (o <<< 6) ||| d) = f ∧
    ((PYRRHIC_FLAG_QPROMO <<< 12) ||| (12 <<< 6) ||| 28) = 4892 ∧
    PYRRHIC_MOVE_IS_QPROMO ((PYRRHIC_FLAG_QPROMO <<< 12) ||| (12 <<< 6) ||| 28) = true := by
  have hf8 : f ≤ 8 := by
    rcases hf with h | h | h | h | h | h <;> rw [h] <;> decide
  have hval := packed_move_eq o d f ho hd
  refine ⟨?_, ?_, ?_, by decide, by decide⟩
  · simp only [PYRRHIC_MOVE_FROM, PYRRHIC_SHIFT_FROM, PYRRHIC_MASK_FROM]
    rw [hval, Nat.shiftRight_eq_div_pow]
    rw [show (0x3F : Nat) = 2 ^ 6 - 1 by norm_num, Nat.and_pow_two_sub_one_eq_mod]
    have h1 : (2 : Nat) ^ 6 = 64 := by norm_num
    rw [h1]
    omega
  · simp only [PYRRHIC_MOVE_TO, PYRRHIC_SHIFT_TO, PYRRHIC_MASK_TO, Nat.shiftRight_zero]
    rw [hval]
    rw [show (0x3F : Nat) = 2 ^ 6 - 1 by norm_num, Nat.and_pow_two_sub_one_eq_mod]
    have h1 : (2 : Nat) ^ 6 = 64 := by norm_num
    rw [h1]
    omega
  · simp only [PYRRHIC_MOVE_FLAGS, PYRRHIC_SHIFT_FLAGS, PYRRHIC_MASK_FLAGS]
    rw [hval, Nat.shiftRight_eq_div_pow]
    rw [show (0x0F : Nat) = 2 ^ 4 - 1 by norm_num, Nat.and_pow_two_sub_one_eq_mod]
    have h1 : (2 : Nat) ^ 4 = 16 := by norm_num
    have h2 : (2 : Nat) ^ 12 = 4096 := by norm_num
    rw [h1, h2]
    omega

/-- Witness for claim C3 at the queen-promotion example. -/
theorem move_roundtrip_C3_witness :
    ((12 : Nat) < 64 ∧ (28 : Nat) < 64 ∧
      ((1 : Nat) = PYRRHIC_FLAG_NONE ∨ (1 : Nat) = PYRRHIC_FLAG_QPROMO ∨
        (1 : Nat) = PYRRHIC_FLAG_RPROMO ∨ (1 : Nat) = PYRRHIC_FLAG_BPROMO ∨
        (1 : Nat) = PYRRHIC_FLAG_NPROMO ∨ (1 : Nat) = PYRRHIC_FLAG_ENPASS)) ∧
    PYRRHIC_MOVE_FROM ((1 <<< 12) ||| (12 <<< 6) ||| 28) = 12 :=
  ⟨by decide, (move_roundtrip_C3 12 28 1 (by decide) (by decide) (by decide)).1⟩
/-- Modelled from the spec: the population-count bridge primitive
(`viridithas_popcount`, supplied by the host engine, not under src/);
§4.3 specifies it as the population count of a 64-bit set. -/
def popcount (n : Nat) : Nat :=
  if h : n = 0 then 0 else n % 2 + popcount (n / 2)
decreasing_by exact Nat.div_lt_self (Nat.pos_of_ne_zero h) (by omega)

/-- Modelled from the spec: the body of `tb_probe_wdl` is not under src/
(api.h only declares it); per §4.4 and §8 the probe checks the total piece
count of the position (the white and black occupancy bitboards) against
the published bound TB_LARGEST and returns TB_RESULT_FAILED when the
count exceeds it, otherwise delegates to the external table lookup. -/
def tb_probe_wdl (white black : Nat) (tbLargest : Nat) (lookup : Nat → Nat → Nat) : Nat :=
  if tbLargest < popcount (white ||| black) then TB_RESULT_FAILED
  else lookup white black

/-- Modelled from the spec: the body of `tb_probe_root` is not under src/
(api.h only declares it); per §4.5 and §8 the root probe fails with
TB_RESULT_FAILED under the same exceeded-piece-count condition as the WDL
probe, otherwise delegates to the external root ranking. -/
def tb_probe_root (white black : Nat) (tbLargest : Nat) (lookup : Nat → Nat → Nat) : Nat :=
  if tbLargest < popcount (white ||| black) then TB_RESULT_FAILED
  else lookup white black

/-- Claim C8: probing a position whose total piece count exceeds the
published TB_LARGEST bound returns the failure sentinel, both for the WDL
probe and for the root probe, regardless of what the table lookup would
return. -/
theorem probe_exceeds_largest_C8 (white black tbLargest : Nat)
    (lookup lookupRoot : Nat → Nat → Nat)
    (h : tbLargest < popcount (white ||| black)) :
    tb_probe_wdl white black tbLargest lookup = TB_RESULT_FAILED ∧
    tb_probe_root white black tbLargest lookupRoot = TB_RESULT_FAILED := by
  constructor
  · simp [tb_probe_wdl, h]
  · simp [tb_probe_root, h]

/-- Evaluation of popcount on the occupancy used by the claim C8 witness:
three pieces. -/
theorem popcount_or_three_four : popcount (3 ||| 4) = 3 := by
  have h7 : (3 ||| 4 : Nat) = 7 := by decide
  rw [h7]
  rw [popcount.eq_def]; norm_num
  rw [popcount.eq_def]; norm_num
  rw [popcount.eq_def]; norm_num
  rw [popcount.eq_def]; norm_num

/-- Witness for claim C8: two kings and a third piece against a bound of
2 supported pieces. -/
theorem probe_exceeds_largest_C8_witness :
    (2 < popcount (3 ||| 4)) ∧
    tb_probe_wdl 3 4 2 (fun x y => x + y) = TB_RESULT_FAILED :=
  ⟨by rw [popcount_or_three_four]; omega,
    (probe_exceeds_largest_C8 3 4 2 (fun x y => x + y) (fun x y => x * y)
      (by rw [popcount_or_three_four]; omega)).1⟩
